import Mathlib

/-!
Verification development for the rAthena Lua NPC-script host
(`src/map/lua_interpreter.{hpp,cpp}`, `src/map/lua_bridge.{hpp,cpp}`).

The C++ code drives an embedded Lua 5.4 VM.  The Lua VM itself is an
external library, so its API surface is modelled here just deeply enough
for the control flow the repository's own code exercises:

* Lua values are `LuaValue` (tables as association lists, functions as the
  dialogue-statement list their body performs, light userdata as a raw
  pointer address with `0` standing for a null pointer).
* A compiled script body is modelled as a list of bridge-call statements
  (`Stmt`): the scripts this host runs interact with the server only
  through the three registered callables `mes` / `next` / `close`.
* The Lua stack is an explicit `List LuaValue` with the head as stack top.
* An unprotected Lua error (e.g. `lua_getfield` applied to a non-indexable
  value outside any `pcall`) aborts the process; it is modelled as
  `Except.error` of a `VMError`.
-/

namespace RAthenaLua

/-- A script-side argument value passed to a bridge callable at a call
site.  Scripts pass scalar values to the dialogue primitives; this is the
argument universe the embedding quantifies over. -/
inductive BArg
  | anil
  | anum (n : Int)
  | astr (s : String)
  | abool (b : Bool)
  deriving DecidableEq, Repr

/-- One statement of a compiled dialogue script body: a call to one of the
three native callables registered by `executor::impl::register_functions`
(`mes`, `next`, `close`), with the stack arguments at the call site. -/
inductive Stmt
  | mes (args : List BArg)
  | next (args : List BArg)
  | close (args : List BArg)
  deriving DecidableEq, Repr

/-- Lua values, restricted to what the host code inspects.  Light
userdata carries the raw pointer address (`0` = null: the C++ registers
possibly-null `map_session_data*` / `npc_data*` pointers verbatim).
A function value carries the dialogue statements its body performs. -/
inductive LuaValue
  | lnil
  | num (n : Int)
  | str (s : String)
  | boolean (b : Bool)
  | table (fields : List (String × LuaValue))
  | func (body : List Stmt)
  | lightuserdata (p : Nat)

/-- The global table of one VM instance, as an association list; lookup
takes the first (most recent) binding. -/
abbrev Globals := List (String × LuaValue)

/-- First-match association-list lookup; a missing key reads as `nil`,
exactly as a missing table field / missing global does in Lua. -/
def lookupAssoc : List (String × LuaValue) → String → LuaValue
  | [], _ => .lnil
  | (k, v) :: rest, n => if k = n then v else lookupAssoc rest n

/-- Apply a list of global assignments in order (a later assignment to the
same name shadows an earlier one). -/
def setGlobals (g : Globals) (sets : List (String × LuaValue)) : Globals :=
  sets.foldl (fun acc kv => kv :: acc) g

/-- `lua_istable`. -/
def luaIsTable : LuaValue → Bool
  | .table _ => true
  | _ => false

/-- `lua_isfunction`. -/
def luaIsFunction : LuaValue → Bool
  | .func _ => true
  | _ => false

/-- `lua_isnumber`: numbers, and strings convertible to a number.  (Lua's
string-to-number conversion also accepts hex/float spellings; the scripts
modelled here only ever use plain integer literals.) -/
def luaIsNumber : LuaValue → Bool
  | .num _ => true
  | .str s => (s.toInt?).isSome
  | _ => false

/-- `lua_isstring`: strings, and numbers (which are convertible). -/
def luaIsString : LuaValue → Bool
  | .str _ => true
  | .num _ => true
  | _ => false

/-- Wrap to a signed 32-bit value: the C++ casts `lua_tointeger`'s 64-bit
result to `int` when filling the metadata fields. -/
def wrap32 (n : Int) : Int :=
  ((n + 2 ^ 31) % 2 ^ 32) - 2 ^ 31

/-- `lua_tointeger` followed by the C++ `(int)` cast. -/
def luaToInteger : LuaValue → Int
  | .num n => wrap32 n
  | .str s => wrap32 ((s.toInt?).getD 0)
  | _ => 0

/-- `lua_tostring` on a value already known to satisfy `lua_isstring`. -/
def luaToString : LuaValue → String
  | .str s => s
  | .num n => toString n
  | _ => ""

/-- An unprotected Lua error: outside any protected call it reaches the
panic handler and aborts the process. -/
inductive VMError
  | indexNonIndexable (key : String)
  deriving DecidableEq, Repr

/-- `lua_getfield` applied to the given value: tables yield the field (or
`nil` when absent; script tables have no metatable), strings consult the
string metatable (none of the metadata keys this host reads is a string
library member, so the lookup yields `nil`), and every other value raises
an unprotected "attempt to index" error. -/
def lua_getfield_value : LuaValue → String → Except VMError LuaValue
  | .table fs, k => .ok (lookupAssoc fs k)
  | .str _, _ => .ok .lnil
  | _, k => .error (.indexNonIndexable k)

/-- The bytes a `bytecode` blob may hold: either a `lua_dump` of a
function body (what the interpreter's extraction actually produces) or
plain source text that would compile to the given body.  The distinction
matters only to the chunk-load mode. -/
inductive program_bytes
  | dumped (prog : List Stmt)
  | text (prog : List Stmt)
  deriving DecidableEq, Repr

/-- `lua::bytecode` (lua_interpreter.hpp): an opaque byte blob, indexed
here by the program it encodes. -/
structure bytecode where
  bytes : program_bytes
  deriving DecidableEq, Repr

/-- `lua_dump` with debug info stripped, applied to a function value at
the stack top: captures the dumped bytes. Only ever invoked on a value
that passed `lua_isfunction`. -/
def lua_dump : LuaValue → bytecode
  | .func body => ⟨.dumped body⟩
  | _ => ⟨.dumped []⟩

/-- `lua::script_metadata` (lua_interpreter.hpp). -/
structure script_metadata where
  path : String
  map : String
  x : Int
  y : Int
  facing : Int
  name : String
  sprite : Int
  code : Option bytecode
  deriving DecidableEq, Repr

/-- `interpreter::impl::fetch_number`.  The stack is threaded explicitly
(head = top).  Note the early return on a non-number leaves the fetched
value on the stack: only the number branch pops. -/
def fetch_number (st : List LuaValue) (name : String) :
    Except VMError (Int × List LuaValue) :=
  -- lua_getfield(lua, -1, name)
  match lua_getfield_value (st.headD .lnil) name with
  | .error e => .error e
  | .ok v =>
    if luaIsNumber v then
      -- lua_tointeger, (int) cast, lua_pop(lua, 1)
      .ok (luaToInteger v, st)
    else
      -- early return 0: the pushed value stays on the stack
      .ok (0, v :: st)

/-- `interpreter::impl::fetch_string`; same stack discipline (and the same
missing pop on the early non-string return) as `fetch_number`. -/
def fetch_string (st : List LuaValue) (name : String) :
    Except VMError (String × List LuaValue) :=
  match lua_getfield_value (st.headD .lnil) name with
  | .error e => .error e
  | .ok v =>
    if luaIsString v then
      .ok (luaToString v, st)
    else
      .ok ("", v :: st)

/-- `interpreter::impl::fetch_metadata`.  Entered with the chunk's single
(adjusted) result at the stack top; `g` is the VM's global table after the
chunk ran, read by `lua_getglobal(lua, "script")`. -/
def fetch_metadata (st : List LuaValue) (g : Globals) :
    Except VMError (Option script_metadata) :=
  if !(luaIsTable (st.headD .lnil)) then
    .ok none
  else match fetch_number st "x" with
  | .error e => .error e
  | .ok (x, st1) =>
    match fetch_number st1 "y" with
    | .error e => .error e
    | .ok (y, st2) =>
      match fetch_number st2 "facing" with
      | .error e => .error e
      | .ok (facing, st3) =>
        match fetch_number st3 "sprite" with
        | .error e => .error e
        | .ok (sprite, st4) =>
          match fetch_string st4 "map" with
          | .error e => .error e
          | .ok (map, st5) =>
            match fetch_string st5 "name" with
            | .error e => .error e
            | .ok (name, _st6) =>
              -- lua_settop(lua, 0); lua_getglobal(lua, "script")
              let scriptVal := lookupAssoc g "script"
              if !(luaIsFunction scriptVal) then
                -- "will let the other end handle what happens when a
                -- script has no code."
                .ok (some ⟨"", map, x, y, facing, name, sprite, none⟩)
              else
                -- lua_dump with strip_debug_info = 1
                .ok (some ⟨"", map, x, y, facing, name, sprite,
                      some (lua_dump scriptVal)⟩)

/-- Outcome of calling a successfully loaded chunk (`lua_pcall` with one
requested result): either a runtime error, or normal completion with the
single (adjusted) returned value and the global assignments the chunk
performed.  Lua itself is external; a chunk's behaviour is the input. -/
inductive chunk_exec
  | err (msg : String) (sets : List (String × LuaValue))
  | ok (ret : LuaValue) (sets : List (String × LuaValue))

/-- Behaviour of `lua_load` on one source file: a load-time parse error
(`LUA_ERRSYNTAX` with the pushed message), some other load failure code,
or a successfully loaded chunk whose call behaves as described. -/
inductive chunk
  | loadSyntaxError (msg : String)
  | loadOther (code : Int)
  | runs (e : chunk_exec)

/-- `interpreter::extract_metadata`, from the point where the source text
has been handed to `lua_load`.  `g` is the interpreter VM's global table
going in (the VM lives in `interpreter::impl` and persists across calls);
the returned `Globals` is the table after this call.  The stack below the
chunk result also holds the pushed error handler; it is never inspected
by the fetch path, so the modelled stack starts at the result. -/
def extract_metadata (g : Globals) (c : chunk) :
    Globals × Except VMError (Option script_metadata) :=
  match c with
  | .loadSyntaxError msg =>
      -- error_message = lua_tostring(lua, -1)
      if msg.isEmpty then
        -- an empty message passes the `error_message.empty()` validation,
        -- so control falls through to fetch_metadata with the pushed
        -- error string still at the stack top (not a table → no metadata)
        (g, fetch_metadata [.str msg] g)
      else
        (g, .ok none)
  | .loadOther _ =>
      -- "Unexpected lua_load_result: N" is never empty
      (g, .ok none)
  | .runs (.err _ sets) =>
      -- lua_pcall failed after the chunk (partially) ran: every branch of
      -- the error-message handling ends with a non-table at the stack top
      -- or a non-empty message, so no metadata is produced; global
      -- assignments made before the error persist in the VM
      (setGlobals g sets, .ok none)
  | .runs (.ok ret sets) =>
      let g' := setGlobals g sets
      (g', fetch_metadata [ret] g')

/-- The `std::ifstream` read in `extract_metadata`: the stream is never
checked, so an unreadable or missing file silently reads as the empty
source text. -/
def read_source : Option String → String
  | none => ""
  | some s => s

/-- Behaviour of the empty source chunk under Lua: it loads fine, returns
nothing (adjusted to a single `nil` by `lua_pcall`'s result count) and
assigns no globals. -/
def empty_chunk : chunk := .runs (.ok .lnil [])

/-- The global table of a freshly constructed interpreter VM.  The
standard library opened by `luaL_openlibs` defines no global named
`script` and no binding this embedding ever reads, so it is elided. -/
def fresh_globals : Globals := []

/-- `interpreter::extract_metadata` including the file read, given the Lua
front end `sem` mapping source text to chunk behaviour. -/
def extract_metadata_file (sem : String → chunk) (g : Globals)
    (file : Option String) :
    Globals × Except VMError (Option script_metadata) :=
  extract_metadata g (sem (read_source file))

/-- `struct npc_data`, reduced to the single field the bridge reads
(`nd->bl.id`, the block-list id handed to the clif functions). -/
structure npc_data where
  bl_id : Nat
  deriving DecidableEq, Repr

/-- The server memory outside this module: what lives at an `npc_data*`
address.  The bridge dereferences the pointer it recovered from the VM
global, so the model makes the dereference explicit. -/
structure World where
  npc_at : Nat → npc_data

/-- `lua_helpers::SD_LUA_VARIABLE`. -/
def SD_LUA_VARIABLE : String := "__map_session_data__"

/-- `lua_helpers::ND_LUA_VARIABLE`. -/
def ND_LUA_VARIABLE : String := "__npc_data__"

/-- `lua_helpers::extract_user_data`: reads the named global; a value that
is not light userdata yields the null pointer, otherwise the stored
pointer address is returned unchanged (the C++ cast is identity on the
address). -/
def extract_user_data (g : Globals) (name : String) : Nat :=
  match lookupAssoc g name with
  | .lightuserdata p => p
  | _ => 0

/-- `lua_helpers::extract_session_data`. -/
def extract_session_data (g : Globals) : Nat :=
  extract_user_data g SD_LUA_VARIABLE

/-- `lua_helpers::extract_npc_data`. -/
def extract_npc_data (g : Globals) : Nat :=
  extract_user_data g ND_LUA_VARIABLE

/-- The anonymous `script_context` of lua_bridge.cpp: rebuilt from VM
globals and the call-site stack on every bridge call. -/
structure script_context where
  sd : Nat
  nd : Nat
  args : Nat

/-- `script_context::script_context(lua_State*)`: `lua_gettop` for the
argument count, then the two global extractions. -/
def script_context.make (g : Globals) (argv : List BArg) : script_context :=
  { sd := extract_session_data g
    nd := extract_npc_data g
    args := argv.length }

/-- `script_context::is_valid`: both recovered pointers non-null. -/
def script_context.is_valid (c : script_context) : Bool :=
  c.sd != 0 && c.nd != 0

/-- One outbound notification handed to the network layer (clif). -/
inductive net_event
  | scriptMes (sd : Nat) (npcId : Nat) (msg : String)
  | scriptNext (sd : Nat) (npcId : Nat)
  | scriptClose (sd : Nat) (npcId : Nat)
  deriving DecidableEq, Repr

/-- Observable outcome of one bridge call: warnings logged via
`ShowWarning`, clif notifications sent, and whether the call ended in
`lua_yield` (suspending the calling coroutine as the C function returns).
Every bridge callable returns normally — none ever raises a VM-level
error — which is why this is a plain structure and not an `Except`. -/
structure bridge_result where
  warnings : List String
  events : List net_event
  yielded : Bool
  deriving DecidableEq, Repr

/-- `lua_isstring` on a call-site argument. -/
def argIsString : BArg → Bool
  | .astr _ => true
  | .anum _ => true
  | _ => false

/-- `lua_tostring` on a call-site argument already known to satisfy
`lua_isstring`. -/
def argToString : BArg → String
  | .astr s => s
  | .anum n => toString n
  | _ => ""

/-- `lua_bridge::mes`. -/
def lua_bridge.mes (w : World) (g : Globals) (argv : List BArg) :
    bridge_result :=
  let c := script_context.make g argv
  if !c.is_valid then
    ⟨["[lua::mes]: Trying to call with no proper context.\n"], [], false⟩
  else if c.args < 1 then
    ⟨["[lua::mes]: Trying to call with no parameters.\n"], [], false⟩
  else if !(argIsString (argv.headD .anil)) then
    ⟨["[lua::mes]: First parameter must be a string.\n"], [], false⟩
  else
    ⟨[], [.scriptMes c.sd (w.npc_at c.nd).bl_id (argToString (argv.headD .anil))], false⟩

/-- `lua_bridge::next`: note the silent `return 0` on an invalid context,
and that the advance notification is sent before `lua_yield`. -/
def lua_bridge.next (w : World) (g : Globals) (argv : List BArg) :
    bridge_result :=
  let c := script_context.make g argv
  if !c.is_valid then
    ⟨[], [], false⟩
  else
    ⟨[], [.scriptNext c.sd (w.npc_at c.nd).bl_id], true⟩

/-- `lua_bridge::close`: silent `return 0` on an invalid context. -/
def lua_bridge.close (w : World) (g : Globals) (argv : List BArg) :
    bridge_result :=
  let c := script_context.make g argv
  if !c.is_valid then
    ⟨[], [], false⟩
  else
    ⟨[], [.scriptClose c.sd (w.npc_at c.nd).bl_id], false⟩

/-- Dispatch one script statement to the registered bridge callable. -/
def exec_stmt (w : World) (g : Globals) : Stmt → bridge_result
  | .mes args => lua_bridge.mes w g args
  | .next args => lua_bridge.next w g args
  | .close args => lua_bridge.close w g args

/-- Outcome of one `lua_resume` of the dialogue coroutine. -/
inductive run_outcome
  | suspended (rest : List Stmt)
  | completed
  deriving DecidableEq, Repr

/-- One `lua_resume`: execute statements until one of them ends in
`lua_yield` (then the coroutine suspends with the remaining statements
pending) or the body runs out (the coroutine finishes).  The collected
warnings and clif notifications happen during the resume, i.e. before the
caller of `run`/`resume` regains control and can observe the outcome. -/
def run_stmts (w : World) (g : Globals) : List Stmt →
    List net_event × List String × run_outcome
  | [] => ([], [], .completed)
  | s :: rest =>
      let r := exec_stmt w g s
      if r.yielded then
        (r.events, r.warnings, .suspended rest)
      else
        let (evs, ws, oc) := run_stmts w g rest
        (r.events ++ evs, r.warnings ++ ws, oc)

/-- The coroutine created by `executor::run`: either suspended with its
pending continuation, or dead (it ran to completion — or, on the
unreachable failed-load path, was never a function to begin with). -/
inductive task
  | suspended (rest : List Stmt)
  | dead
  deriving DecidableEq, Repr

/-- `executor::impl`: the executor's own VM (its global table), the
registered session/NPC pointers, and the single coroutine, if any. -/
structure executor_state where
  sd : Nat
  nd : Nat
  globals : Globals
  thread : Option task

/-- `executor::executor(map_session_data*, npc_data*)` together with
`impl::impl`: fresh VM with the standard library (elided — it defines no
binding this embedding reads), the three bridge callables registered, and
`register_globals` publishing the executor, session and NPC pointers as
light-userdata globals.  `self_addr` is the address of the impl object
itself. -/
def executor.create (sd nd self_addr : Nat) : executor_state :=
  { sd := sd
    nd := nd
    globals :=
      setGlobals fresh_globals
        [("__executor__", .lightuserdata self_addr),
         (SD_LUA_VARIABLE, .lightuserdata sd),
         (ND_LUA_VARIABLE, .lightuserdata nd)]
    thread := none }

/-- The chunk-load mode accepted by `lua_load`'s `mode` parameter:
`"b"`, `"t"` or `"bt"` (the default when the C API receives NULL). -/
inductive load_mode
  | binaryOnly
  | textOnly
  | textOrBinary
  deriving DecidableEq, Repr

/-- `luaL_loadbufferx`: loads a chunk under the given mode — a dump is
accepted only when the mode admits binary chunks, source text only when
it admits text.  (Corrupt blobs and ill-formed text are outside the
model; the pipeline only ever produces well-formed dumps.) -/
def lua_loadbufferx (b : program_bytes) (mode : load_mode) :
    Except String (List Stmt) :=
  match b with
  | .dumped p =>
      if mode = .textOnly then .error "attempt to load a binary chunk"
      else .ok p
  | .text p =>
      if mode = .binaryOnly then .error "attempt to load a text chunk"
      else .ok p

/-- `luaL_loadbuffer(L, buff, sz, name)`: the fourth argument is the chunk
NAME used in error messages; the load mode defaults to text-or-binary
(the macro passes NULL as the mode). -/
def luaL_loadbuffer (b : program_bytes) (chunkname : String) :
    Except String (List Stmt) :=
  let _ := chunkname
  lua_loadbufferx b .textOrBinary

/-- `executor::run`: `luaL_loadbuffer(lua, code, size, "b")` — the literal
`"b"` is the chunk name, so the default `bt` mode applies — then
`lua_newthread` / `lua_pushvalue(-2)` / `lua_xmove` move the loaded
callable into the one fresh coroutine, and `resume()` starts it.  The
load status is never checked; on a (here unreachable) load failure the
pushed error string, not a function, is what reaches the thread, whose
first resume then faults immediately.  Returns `true` unconditionally. -/
def executor.run (w : World) (st : executor_state) (code : bytecode) :
    executor_state × List net_event × List String × Bool :=
  match luaL_loadbuffer code.bytes "b" with
  | .ok prog =>
      let (evs, ws, oc) := run_stmts w st.globals prog
      ({ st with thread := some (match oc with
          | .suspended rest => task.suspended rest
          | .completed => task.dead) }, evs, ws, true)
  | .error _ =>
      ({ st with thread := some task.dead }, [], [], true)

/-- `executor::resume`: `lua_resume(thread, nullptr, 0, &results)` on the
single coroutine, continuing from the pending suspension point with no
arguments.  Resuming a dead coroutine returns an error status the C++
ignores; resuming with no thread at all is a caller error the driver must
avoid (modelled as a no-op). -/
def executor.resume (w : World) (st : executor_state) :
    executor_state × List net_event × List String :=
  match st.thread with
  | some (task.suspended rest) =>
      let (evs, ws, oc) := run_stmts w st.globals rest
      ({ st with thread := some (match oc with
          | .suspended rest' => task.suspended rest'
          | .completed => task.dead) }, evs, ws)
  | some task.dead => (st, [], [])
  | none => (st, [], [])

/-! ### Concrete fixtures used by the theorems -/

/-- The dialogue body of the end-to-end "Guard" scenario:
`showMessage("Halt!")`, `advance()`, `showMessage("Move along.")`,
`endDialogue()`. -/
def guard_body : List Stmt :=
  [.mes [.astr "Halt!"], .next [], .mes [.astr "Move along."], .close []]

/-- Chunk behaviour of the Guard scenario source: the top level returns
the metadata table setting `name`, `x` and `y`, and defines the global
`script` function with the dialogue body. -/
def guard_chunk : chunk :=
  .runs (.ok (.table [("name", .str "Guard"), ("x", .num 150), ("y", .num 200)])
    [("script", .func guard_body)])

/-- A server world in which every NPC address dereferences to an NPC with
block-list id 110 (only one address is ever dereferenced here). -/
def w0 : World := ⟨fun _ => ⟨110⟩⟩

/-- An executor created on a valid (session, NPC) pair: session pointer 1,
NPC pointer 2, impl object at address 7. -/
def guard_executor : executor_state := executor.create 1 2 7

/-- An executor created with a null session pointer: its invocation
context never validates. -/
def null_session_executor : executor_state := executor.create 0 2 7

/-- The compiled Guard program as `lua_dump` would emit it. -/
def guard_code : bytecode := ⟨.dumped guard_body⟩

/-- A script returning a metadata table that sets every field except
`x`. -/
def missing_x_chunk : chunk :=
  .runs (.ok (.table [("y", .num 1), ("facing", .num 2), ("sprite", .num 3),
    ("map", .str "prontera"), ("name", .str "Guard")]) [])

/-- A script whose top level returns nothing of interest but assigns the
global `script`, polluting the interpreter VM for later extractions. -/
def pollute_chunk : chunk := .runs (.ok .lnil [("script", .func [])])

/-- A metadata table with all six fields set. -/
def full_table (x y facing sprite : Int) (mp nm : String) : LuaValue :=
  .table [("x", .num x), ("y", .num y), ("facing", .num facing),
          ("sprite", .num sprite), ("map", .str mp), ("name", .str nm)]

/-- A well-behaved script: full metadata table, no global assignments (in
particular it does not define `script`). -/
def plain_chunk : chunk :=
  .runs (.ok (full_table 5 6 7 8 "prontera" "Shopkeeper") [])

/-- A script whose top level succeeds but returns a number instead of a
table. -/
def number_chunk : chunk := .runs (.ok (.num 5) [])

/-- Whether an extraction result carries a compiled program. -/
def code_present (r : Globals × Except VMError (Option script_metadata)) :
    Bool :=
  match r.2 with
  | .ok (some m) => m.code.isSome
  | _ => false

/-- A `bytecode` blob whose bytes are plain source text (not a dump): the
text chunk `close()`. -/
def text_code : bytecode := ⟨.text [.close []]⟩

/-- A Lua front end under which the empty source is the empty chunk and
every other source has a parse error. -/
def sem_default (s : String) : chunk :=
  if s.isEmpty then empty_chunk else .loadSyntaxError "boom"

/-- Whether a statement is a call to the `advance()` callable
(`lua_bridge::next`). -/
def Stmt.is_advance : Stmt → Bool
  | .next _ => true
  | _ => false

/-- A metadata table with every field except `name` set: the one field the
stack-discipline defect tolerates missing, because the dangling `nil` it
leaves is cleared by the final `lua_settop(lua, 0)`. -/
def missing_name_chunk : chunk :=
  .runs (.ok (.table [("x", .num 1), ("y", .num 2), ("facing", .num 3),
    ("sprite", .num 4), ("map", .str "prontera")]) [])

/-! ### Claim theorems -/

/-- Claim C1.  The end-to-end Guard scenario does not behave as claimed:
extraction of the scenario source (which leaves `facing`, `sprite` and
`map` unset) aborts with an unprotected VM error — `fetch_number` leaves
the `nil` fetched for the missing `facing` on the stack, and the next
`lua_getfield` for `sprite` indexes that `nil`.  The executor half of the
scenario, run on the dialogue program the script defines, does deliver
"Halt!" plus an advance notification, suspend, and on resume deliver
"Move along." plus an end-dialogue notification and complete, so the
divergence is exactly at extraction. -/
theorem claim_C1_guard_scenario_extraction_aborts :
    (extract_metadata fresh_globals guard_chunk).2
        = .error (.indexNonIndexable "sprite") ∧
    (executor.run w0 guard_executor guard_code).2.1
        = [.scriptMes 1 110 "Halt!", .scriptNext 1 110] ∧
    (executor.run w0 guard_executor guard_code).1.thread
        = some (.suspended [.mes [.astr "Move along."], .close []]) ∧
    (executor.resume w0 (executor.run w0 guard_executor guard_code).1).2.1
        = [.scriptMes 1 110 "Move along.", .scriptClose 1 110] ∧
    (executor.resume w0 (executor.run w0 guard_executor guard_code).1).1.thread
        = some .dead :=
  ⟨rfl, rfl, rfl, rfl, rfl⟩

/-- Claim C2.  Unset metadata fields do not default harmlessly: a table
leaving `x` unset makes `fetch_number` return early without popping the
fetched `nil`, so the following `lua_getfield` for `y` indexes a `nil`
and raises an unprotected VM error, aborting extraction (in the C++, the
process).  Only the final field, `name`, may be left unset safely, since
the dangling `nil` it leaves is discarded by `lua_settop(lua, 0)`. -/
theorem claim_C2_missing_field_aborts :
    (extract_metadata fresh_globals missing_x_chunk).2
        = .error (.indexNonIndexable "y") ∧
    (extract_metadata fresh_globals missing_name_chunk).2
        = .ok (some ⟨"", "prontera", 1, 2, 3, "", 4, none⟩) :=
  ⟨rfl, rfl⟩

/-- Claim C6 (confirmed).  For every source the VM rejects with a syntax
error at load time, `extract_metadata` yields no metadata at all and
leaves the interpreter globals untouched: a non-empty message fails the
`error_message.empty()` validation, and even an empty message merely
falls through to `fetch_metadata` with the pushed error string (not a
table) at the stack top. -/
theorem claim_C6_syntax_error_yields_no_metadata (g : Globals) (msg : String) :
    extract_metadata g (chunk.loadSyntaxError msg) = (g, .ok none) := by
  simp only [extract_metadata]
  split_ifs <;> simp [fetch_metadata, luaIsTable]

/-- Claim C10 (confirmed).  Whenever the top-level chunk call succeeds but
its single (adjusted) result is not a table — including the `nil` a chunk
returning nothing is adjusted to — `fetch_metadata`'s `lua_istable` check
fails and extraction returns absent metadata, with no error. -/
theorem claim_C10_non_table_result_yields_none (g : Globals) (ret : LuaValue)
    (sets : List (String × LuaValue)) (h : luaIsTable ret = false) :
    (extract_metadata g (chunk.runs (.ok ret sets))).2 = .ok none := by
  unfold extract_metadata fetch_metadata
  simp [h]

/-- Claim C10 witness: a chunk returning the boolean `true`. -/
theorem claim_C10_witness :
    (extract_metadata fresh_globals
        (chunk.runs (.ok (.boolean true) []))).2 = .ok none :=
  claim_C10_non_table_result_yields_none fresh_globals (.boolean true) [] rfl

/-- Claim C7 counterexample.  A script whose top-level execution succeeds
(returning the number 5) and defines no `script` function yields absent
metadata, not "metadata with the compiled program absent" as the claim
demands for every successfully-executing source. -/
theorem claim_C7_counterexample :
    (extract_metadata fresh_globals number_chunk).2 = .ok none :=
  rfl

/-- Claim C7 (amended).  For a script whose top level succeeds returning
a table with `x`, `y`, `facing`, `sprite` and `map` present (so the
unpopped-stack defect is not tripped) and whose resulting global `script`
is absent or not callable, extraction returns metadata with the compiled
program absent, and this is not an error. -/
theorem claim_C7_no_script_function_program_absent
    (g : Globals) (x y facing sprite : Int) (mp nm : String)
    (sets : List (String × LuaValue))
    (h : luaIsFunction (lookupAssoc (setGlobals g sets) "script") = false) :
    (extract_metadata g
        (chunk.runs (.ok (full_table x y facing sprite mp nm) sets))).2
      = .ok (some ⟨"", mp, wrap32 x, wrap32 y, wrap32 facing, nm,
          wrap32 sprite, none⟩) := by
  simp only [extract_metadata]
  simp [full_table, fetch_metadata, fetch_number, fetch_string,
        lua_getfield_value, lookupAssoc, luaIsTable, luaIsNumber,
        luaIsString, luaToInteger, luaToString, h]

/-- Claim C7 witness: the shopkeeper script, extracted on a fresh
interpreter. -/
theorem claim_C7_witness :
    (extract_metadata fresh_globals plain_chunk).2
      = .ok (some ⟨"", "prontera", wrap32 5, wrap32 6, wrap32 7,
          "Shopkeeper", wrap32 8, none⟩) :=
  claim_C7_no_script_function_program_absent
    fresh_globals 5 6 7 8 "prontera" "Shopkeeper" [] rfl

/-- Claim C3 counterexample.  The interpreter VM is created once in
`impl::impl` and reused by every `extract_metadata` call on the same
interpreter: after extracting a file that assigns the global `script`,
extracting a second file that defines no `script` function of its own
still finds the first file's global and returns metadata WITH a compiled
program, whereas a freshly constructed interpreter returns it without
one — the second call's result is not identical to a fresh extraction,
refuting the claimed isolation. -/
theorem claim_C3_counterexample :
    code_present (extract_metadata
        (extract_metadata fresh_globals pollute_chunk).1 plain_chunk) = true ∧
    code_present (extract_metadata fresh_globals plain_chunk) = false :=
  ⟨rfl, rfl⟩

/-- Claim C3 (amended).  Successive `extract_metadata` calls on one
interpreter share its single VM: each call leaves the global table equal
to the prior table updated by the chunk's assignments, and a global
`script` function surviving from an earlier call is picked up — and its
dump returned as the compiled program — by a later extraction whose own
chunk does not touch `script`.  Isolation holds only between distinct
interpreter instances. -/
theorem claim_C3_vm_persists_across_extractions
    (g : Globals) (ret : LuaValue) (sets : List (String × LuaValue))
    (x y facing sprite : Int) (mp nm : String) (body : List Stmt)
    (h : lookupAssoc g "script" = .func body) :
    (extract_metadata g (chunk.runs (.ok ret sets))).1 = setGlobals g sets ∧
    (extract_metadata g
        (chunk.runs (.ok (full_table x y facing sprite mp nm) []))).2
      = .ok (some ⟨"", mp, wrap32 x, wrap32 y, wrap32 facing, nm,
          wrap32 sprite, some ⟨.dumped body⟩⟩) := by
  constructor
  · rfl
  · simp only [extract_metadata]
    simp [full_table, fetch_metadata, fetch_number, fetch_string,
          lua_getfield_value, lookupAssoc, luaIsTable, luaIsNumber,
          luaIsString, luaToInteger, luaToString, setGlobals,
          luaIsFunction, lua_dump, h]

/-- Claim C3 witness: the polluted interpreter state observed by the
shopkeeper extraction. -/
theorem claim_C3_witness :
    (extract_metadata
        (extract_metadata fresh_globals pollute_chunk).1 plain_chunk).2
      = .ok (some ⟨"", "prontera", wrap32 5, wrap32 6, wrap32 7,
          "Shopkeeper", wrap32 8, some ⟨.dumped []⟩⟩) :=
  (claim_C3_vm_persists_across_extractions
    (extract_metadata fresh_globals pollute_chunk).1 .lnil []
    5 6 7 8 "prontera" "Shopkeeper" [] rfl).2

/-- Claim C9 counterexample.  No distinguished `CompileError::Unreadable`
exists: the `std::ifstream` is never checked, an unreadable file reads as
empty source, and the resulting absent-metadata outcome is literally
identical to that of a file with a syntax error — the I/O failure is not
distinct from syntax and runtime failures. -/
theorem claim_C9_counterexample :
    extract_metadata_file sem_default fresh_globals none
      = extract_metadata fresh_globals (chunk.loadSyntaxError "boom") :=
  rfl

/-- Claim C9 (amended).  If reading the file at `path` fails, the failure
is silently ignored: the chunk handed to the VM is the empty source,
which loads and runs fine but returns no table, so `extract_metadata`
returns absent metadata — indistinguishable from any other failed
extraction, with no distinguished I/O error. -/
theorem claim_C9_unreadable_file_reads_as_empty
    (sem : String → chunk) (g : Globals) (h : sem "" = empty_chunk) :
    extract_metadata_file sem g none = (g, .ok none) := by
  unfold extract_metadata_file read_source
  rw [h]
  simp only [empty_chunk, extract_metadata]
  simp [fetch_metadata, luaIsTable, setGlobals]

/-- Claim C9 witness: the default front end on an unreadable file. -/
theorem claim_C9_witness :
    extract_metadata_file sem_default fresh_globals none
      = (fresh_globals, .ok none) :=
  claim_C9_unreadable_file_reads_as_empty sem_default fresh_globals rfl

/-- Claim C8.  `executor::run` does NOT load the program in binary
(pre-compiled-only) mode, contradicting its own comment: the literal
`"b"` is `luaL_loadbuffer`'s chunk-NAME argument, and the load mode
defaults to text-or-binary.  A blob of plain source text — which the
claimed pre-compiled-only mode rejects — is accepted, moved into the
fresh coroutine and executed (here a text chunk calling `close()`, whose
end-dialogue notification is delivered and whose task completes). -/
theorem claim_C8_run_accepts_text_chunks :
    (executor.run w0 guard_executor text_code).2.1 = [.scriptClose 1 110] ∧
    (executor.run w0 guard_executor text_code).1.thread = some .dead ∧
    (executor.run w0 guard_executor text_code).2.2.2 = true ∧
    lua_loadbufferx text_code.bytes .binaryOnly
      = .error "attempt to load a text chunk" :=
  ⟨rfl, rfl, rfl, rfl⟩

/-- Helper: `lua_bridge::mes` never ends in `lua_yield`, whatever the
context and arguments. -/
theorem mes_yielded_false (w : World) (g : Globals) (argv : List BArg) :
    (lua_bridge.mes w g argv).yielded = false := by
  simp only [lua_bridge.mes]
  split_ifs <;> rfl

/-- Helper: `lua_bridge::close` never ends in `lua_yield`. -/
theorem close_yielded_false (w : World) (g : Globals) (argv : List BArg) :
    (lua_bridge.close w g argv).yielded = false := by
  simp only [lua_bridge.close]
  split_ifs <;> rfl

/-- Helper: a statement whose bridge call ends in `lua_yield` can only be
a call to `advance()` (`lua_bridge::next`). -/
theorem exec_stmt_yield_is_advance (w : World) (g : Globals) (s : Stmt)
    (h : (exec_stmt w g s).yielded = true) : s.is_advance = true := by
  cases s with
  | mes a => rw [exec_stmt, mes_yielded_false] at h; exact absurd h (by simp)
  | next a => rfl
  | close a => rw [exec_stmt, close_yielded_false] at h; exact absurd h (by simp)

/-- Claim C4 counterexample.  Not every bridge validation failure logs a
warning: `lua_bridge::next` invoked with an invalid invocation context (a
null session pointer) returns silently — no warning, no notification, no
suspension — refuting the claim's "every validation failure causes the
callable to log a descriptive warning". -/
theorem claim_C4_counterexample :
    (script_context.make null_session_executor.globals []).is_valid
        = false ∧
    lua_bridge.next w0 null_session_executor.globals [] = ⟨[], [], false⟩ :=
  ⟨rfl, rfl⟩

/-- Claim C4 (amended).  Validation failures are non-fatal and act-free
for every bridge callable, but only `mes` logs: any of `mes`'s three
validation failures (invalid context, no parameters, non-string first
parameter) logs exactly one descriptive warning and returns with no
notification and no suspension; `next` and `close` return silently on an
invalid context, also with no notification and no suspension.  No
callable ever raises a VM-level error: each is a total function returning
normally. -/
theorem claim_C4_validation_failures_nonfatal
    (w : World) (g : Globals) (argv : List BArg) :
    (((script_context.make g argv).is_valid = false ∨ argv.length < 1 ∨
        argIsString (argv.headD .anil) = false) →
      (lua_bridge.mes w g argv).warnings.length = 1 ∧
      (lua_bridge.mes w g argv).events = [] ∧
      (lua_bridge.mes w g argv).yielded = false) ∧
    ((script_context.make g argv).is_valid = false →
      lua_bridge.next w g argv = ⟨[], [], false⟩) ∧
    ((script_context.make g argv).is_valid = false →
      lua_bridge.close w g argv = ⟨[], [], false⟩) := by
  refine ⟨?_, ?_, ?_⟩
  · intro h
    simp only [lua_bridge.mes]
    split_ifs with h1 h2 h3
    · exact ⟨rfl, rfl, rfl⟩
    · exact ⟨rfl, rfl, rfl⟩
    · exact ⟨rfl, rfl, rfl⟩
    · exfalso
      rcases h with h | h | h
      · simp [h] at h1
      · exact h2 (by simpa [script_context.make] using h)
      · cases argv with
        | nil => exact h2 (by simp [script_context.make])
        | cons a t =>
            rw [List.headD_cons] at h
            simp [h] at h3
  · intro h
    simp [lua_bridge.next, h]
  · intro h
    simp [lua_bridge.close, h]

/-- Claim C4 witness: `mes` with a null session pointer and no
arguments. -/
theorem claim_C4_witness :
    (lua_bridge.mes w0 null_session_executor.globals []).warnings.length
        = 1 ∧
    (lua_bridge.mes w0 null_session_executor.globals []).events = [] ∧
    (lua_bridge.mes w0 null_session_executor.globals []).yielded = false :=
  (claim_C4_validation_failures_nonfatal
    w0 null_session_executor.globals []).1 (Or.inl rfl)

/-- Claim C5 (confirmed, over dialogue programs).  Within one Executor
the only suspension point is inside the `advance()` callable: `mes` and
`close` never end in `lua_yield`; when `next` yields it has already sent
its advance notification (its event list is exactly the one advance
notification); and whenever a resume of the task is observed suspended,
the program splits as a non-yielding prefix followed by the suspending
`advance()` call, with the delivered events being exactly the prefix's
events (every preceding `showMessage` line included) followed by the
advance notification — all delivered during the resume, i.e. before the
driver observes the suspension. -/
theorem claim_C5_advance_is_only_suspension_point :
    (∀ w g argv, (lua_bridge.mes w g argv).yielded = false) ∧
    (∀ w g argv, (lua_bridge.close w g argv).yielded = false) ∧
    (∀ w g argv, (lua_bridge.next w g argv).yielded = true →
      (lua_bridge.next w g argv).events
        = [.scriptNext (extract_session_data g)
            ((w.npc_at (extract_npc_data g)).bl_id)]) ∧
    (∀ w g prog evs ws rest,
      run_stmts w g prog = (evs, ws, .suspended rest) →
      ∃ pre s, prog = pre ++ s :: rest ∧
        (∀ t ∈ pre, (exec_stmt w g t).yielded = false) ∧
        (exec_stmt w g s).yielded = true ∧
        s.is_advance = true ∧
        evs = pre.flatMap (fun t => (exec_stmt w g t).events)
                ++ (exec_stmt w g s).events) := by
  refine ⟨mes_yielded_false, close_yielded_false, ?_, ?_⟩
  · intro w g argv h
    simp only [lua_bridge.next] at h ⊢
    split_ifs at h ⊢ with hv
    rfl
  · intro w g prog
    induction prog with
    | nil =>
        intro evs ws rest h
        exact absurd h (by simp [run_stmts])
    | cons s tl ih =>
        intro evs ws rest h
        simp only [run_stmts] at h
        by_cases hy : (exec_stmt w g s).yielded = true
        · rw [if_pos hy] at h
          simp only [Prod.mk.injEq] at h
          obtain ⟨he, -, hr⟩ := h
          injection hr with htl
          subst htl
          refine ⟨[], s, rfl, by simp, hy,
            exec_stmt_yield_is_advance w g s hy, ?_⟩
          simp [← he]
        · rw [if_neg hy] at h
          rcases hrun : run_stmts w g tl with ⟨evs', ws', oc⟩
          simp only [hrun] at h
          simp only [Prod.mk.injEq] at h
          obtain ⟨he, -, hoc⟩ := h
          obtain ⟨pre, s', hsplit, hpre, hys', hadv, hevs⟩ :=
            ih evs' ws' rest (by rw [hrun, hoc])
          refine ⟨s :: pre, s', ?_, ?_, hys', hadv, ?_⟩
          · rw [hsplit]
            rfl
          · intro t ht
            rcases List.mem_cons.mp ht with h1 | h1
            · subst h1
              simpa using hy
            · exact hpre t h1
          · rw [← he, hevs]
            simp [List.flatMap_cons, List.append_assoc]

/-- Claim C5 witness: the Guard dialogue body suspends exactly at its
`advance()` call; "Halt!" and the advance notification are the events
delivered before the driver sees the suspension. -/
theorem claim_C5_witness :
    (∃ pre s,
      guard_body = pre ++ s :: [Stmt.mes [.astr "Move along."], Stmt.close []] ∧
      (∀ t ∈ pre, (exec_stmt w0 guard_executor.globals t).yielded = false) ∧
      (exec_stmt w0 guard_executor.globals s).yielded = true ∧
      s.is_advance = true ∧
      [net_event.scriptMes 1 110 "Halt!", net_event.scriptNext 1 110]
        = pre.flatMap (fun t => (exec_stmt w0 guard_executor.globals t).events)
          ++ (exec_stmt w0 guard_executor.globals s).events) ∧
    (lua_bridge.next w0 guard_executor.globals []).events
      = [.scriptNext (extract_session_data guard_executor.globals)
          ((w0.npc_at (extract_npc_data guard_executor.globals)).bl_id)] :=
  ⟨claim_C5_advance_is_only_suspension_point.2.2.2 w0 guard_executor.globals
      guard_body
      [net_event.scriptMes 1 110 "Halt!", net_event.scriptNext 1 110] []
      [Stmt.mes [.astr "Move along."], Stmt.close []] rfl,
   claim_C5_advance_is_only_suspension_point.2.2.1 w0 guard_executor.globals
      [] rfl⟩

end RAthenaLua
